import Mathlib

/-!
Verification of `src/src/modules/krita/producer_krita.c` (the Krita
variable-speed, range-restricted MLT producer module).

The C code is shallowly embedded: the module's own static functions
(`restrict_range`, `is_valid_range`, `producer_get_audio`,
`producer_get_frame`, `producer_seek`) are translated directly; MLT
framework collaborators (the inner producer, the frame's audio-render
stack, `mlt_audio_reverse`) are modelled from the design spec as
explicit parameters or small definitions, since their code is not part
of the module under `src/`.

C `int` arithmetic is modelled with `Int` (signed overflow is undefined
behaviour in C, so the functions are only specified where no overflow
occurs); the C `%` on `int` is truncated remainder, `Int.tmod`; the C
`double` is modelled with `ℚ`, and the `double → int` conversion is
truncation toward zero.
-/

namespace ProducerKrita

/-- The MLT `MAX` macro: `((a) > (b) ? (a) : (b))`. -/
def cMAX (a b : Int) : Int := if a > b then a else b

/-- Function `restrict_range` (producer_krita.c lines 42-46):
`const int span = max - min; return (MAX(index - min, 0) % (span + 1)) + min;`
C `%` on `int` truncates toward zero, hence `Int.tmod`. -/
def restrict_range (index mn mx : Int) : Int :=
  let span := mx - mn
  (Int.tmod (cMAX (index - mn) 0) (span + 1)) + mn

/-- Function `is_valid_range` (producer_krita.c lines 48-54). -/
def is_valid_range (frame_start frame_end : Int) : Bool :=
  let NON_NEGATIVE : Bool := decide (frame_start ≥ 0) && decide (frame_end ≥ 0)
  let NON_INVERTED : Bool := decide (frame_end > frame_start)
  NON_NEGATIVE && NON_INVERTED

/-- The `struct mlt_audio_s` fields that the module touches.  Sample
data is modelled as a list of per-sample-time groups, each group one
value per channel (the interleaved layout of the raw buffer); `ℚ`
stands for whatever the sample format holds. -/
structure mlt_audio where
  data : List (List ℚ)
  frequency : Int
  fmt : Nat
  channels : Int
  samples : Int
deriving Repr, DecidableEq

/-- Modelled from the spec: `mlt_audio_reverse` is MLT framework code
not under `src/`; per the spec it reverses the temporal order of
samples across all channels, each multi-channel sample group moved as
a unit, touching nothing else. -/
def mlt_audio_reverse (a : mlt_audio) : mlt_audio :=
  { a with data := a.data.reverse }

/-- The C `double → int` conversion: truncation toward zero. -/
def truncToInt (q : ℚ) : Int := q.num.tdiv q.den

/-- Function `producer_get_audio` (producer_krita.c lines 56-89).  The popped
producer's property read `mlt_properties_get_double(props, "speed")` is
the `speed` argument (the value held by the configuration at the moment
of this call); `mlt_frame_get_audio` — the recursive "ask the rest of
the chain for raw audio" step — is the function argument
`frame_get_audio`, taking the caller-supplied in/out buffer values and
returning the raw audio together with its error status.  The
`mlt_audio_set_values`/`mlt_audio_get_values` calls are plain field
copies in MLT and are absorbed into the function boundary. -/
def producer_get_audio (speed : ℚ)
    (frame_get_audio : mlt_audio → mlt_audio × Int)
    (input : mlt_audio) : mlt_audio × Int :=
  let res := frame_get_audio input
  let audio := res.1
  let error := res.2
  let audio := { audio with frequency := truncToInt ((audio.frequency : ℚ) * |speed|) }
  let audio := if speed < 0 then mlt_audio_reverse audio else audio
  (audio, error)

/-- The configuration properties of the wrapper producer that
`producer_get_frame` reads (`speed`, `start_frame`, `end_frame`,
`limit_enabled`); property storage itself is MLT framework plumbing,
so the record holds the values the reads return. -/
structure Props where
  speed : ℚ
  start_frame : Int
  end_frame : Int
  limit_enabled : Bool
deriving Repr

/-- An entry of a frame's audio-render stack.  `producer_get_frame`
pushes the producer handle and then the `producer_get_audio` function
pointer; the entries are modelled as tags (the handle is a reference to
the live configuration, so the speed it yields at render time is
supplied to `frame_render_audio` below). -/
inductive AudioStackItem where
  | step
  | handle
deriving Repr, DecidableEq

/-- The `mlt_frame` fields the module touches: the placeholder-audio
flag read by `mlt_frame_is_test_audio`, and the audio-render stack fed
by `mlt_frame_push_audio`. -/
structure Frame where
  test_audio : Bool
  audio_stack : List AudioStackItem
deriving Repr, DecidableEq

/-- Function `producer_get_frame` (producer_krita.c lines 91-115).  `props`
holds the wrapper's property values; `inner_position` is
`mlt_producer_position(pdata->producer_internal)` at entry;
`inner_get_frame` is the delegated `mlt_service_get_frame` on the inner
producer, taking the inner position it runs at and the external index
and returning the produced frame with its status.  Returned are the
frame (with render steps pushed unless it is test audio), `retval`, and
the inner producer's position as this function leaves it. -/
def producer_get_frame (props : Props) (inner_position : Int)
    (inner_get_frame : Int → Int → Frame × Int)
    (index : Int) : Frame × Int × Int :=
  let FRAME_START := props.start_frame
  let FRAME_END := props.end_frame
  let IS_RANGE_LIMITED := props.limit_enabled
  let POSITION := inner_position
  let pos :=
    if IS_RANGE_LIMITED && is_valid_range FRAME_START FRAME_END then
      restrict_range POSITION FRAME_START FRAME_END
    else POSITION
  let res := inner_get_frame pos index
  let frame := res.1
  let retval := res.2
  let frame :=
    if ! frame.test_audio then
      { frame with
        audio_stack := AudioStackItem.step :: AudioStackItem.handle :: frame.audio_stack }
    else frame
  (frame, retval, pos)

/-- The inner-producer position as `producer_get_frame` passes it to
the delegated frame retrieval (lines 101-105 factored out for reuse in
statements). -/
def effective_position (props : Props) (pos : Int) : Int :=
  if props.limit_enabled && is_valid_range props.start_frame props.end_frame then
    restrict_range pos props.start_frame props.end_frame
  else pos

/-- Modelled from the spec: the framework's `mlt_frame_get_audio`
resolves the frame's audio-render stack last-in-first-out — it pops the
`producer_get_audio` function together with the producer handle pushed
beneath it and invokes it, the handle yielding the configuration's
speed at that (render) moment; with no step attached it yields the
frame's own (placeholder) audio from the rest of the chain. -/
def frame_render_audio (render_speed : ℚ) (f : Frame)
    (frame_get_audio : mlt_audio → mlt_audio × Int)
    (input : mlt_audio) : mlt_audio × Int :=
  match f.audio_stack with
  | AudioStackItem.step :: AudioStackItem.handle :: _ =>
      producer_get_audio render_speed frame_get_audio input
  | _ => frame_get_audio input

/-- Function `producer_seek` (producer_krita.c lines 117-124): delegates to
`mlt_producer_seek` on the inner producer (the `inner_seek` argument)
and returns its status. -/
def producer_seek (inner_seek : Int → Int) (position : Int) : Int :=
  let retval := inner_seek position
  retval

/-- A concrete audio buffer used to instantiate theorems. -/
def sampleAudio : mlt_audio :=
  { data := [[1], [2], [3]], frequency := 48000, fmt := 2, channels := 1, samples := 3 }

/-- A concrete "rest of the chain" retrieval that succeeds and returns
the buffer unchanged. -/
def chainOk : mlt_audio → mlt_audio × Int := fun a => (a, 0)

/-- A concrete "rest of the chain" retrieval that fails with status 1. -/
def chainFail : mlt_audio → mlt_audio × Int := fun a => (a, 1)

lemma cMAX_eq_max (a b : Int) : cMAX a b = max a b := by
  simp only [cMAX, max_def]
  split <;> split <;> omega

/-- C1: for `max > min`, `restrict_range index min max` equals
`(max(index - min, 0) mod (max - min + 1)) + min` with a true
(Euclidean) modulus; `restrict_range 25 10 20 = 14`; and any
`index ≤ min` clamps to exactly `min` — no negative wrap. -/
theorem restrict_range_spec (index mn mx : Int) (h : mx > mn) :
    restrict_range index mn mx = (max (index - mn) 0) % (mx - mn + 1) + mn
    ∧ restrict_range 25 10 20 = 14
    ∧ (index ≤ mn → restrict_range index mn mx = mn) := by
  have hoff : (0 : Int) ≤ max (index - mn) 0 := le_max_right _ _
  have hspan : (0 : Int) ≤ mx - mn + 1 := by omega
  refine ⟨?_, by decide, ?_⟩
  · show (Int.tmod (cMAX (index - mn) 0) ((mx - mn) + 1)) + mn = _
    rw [cMAX_eq_max, Int.tmod_eq_emod hoff hspan]
  · intro hle
    show (Int.tmod (cMAX (index - mn) 0) ((mx - mn) + 1)) + mn = mn
    rw [cMAX_eq_max, max_eq_right (by omega : index - mn ≤ 0), Int.zero_tmod, zero_add]

/-- Witness for `restrict_range_spec` at `index = 5, min = 10, max = 20`. -/
theorem restrict_range_spec_witness :
    restrict_range 5 10 20 = (max ((5 : Int) - 10) 0) % (20 - 10 + 1) + 10
    ∧ restrict_range 25 10 20 = 14
    ∧ ((5 : Int) ≤ 10 → restrict_range 5 10 20 = 10) :=
  restrict_range_spec 5 10 20 (by decide)

/-- C4: `is_valid_range start end` is true iff `start ≥ 0`, `end ≥ 0`
and `end > start`, with the spec's three examples. -/
theorem is_valid_range_spec (s e : Int) :
    (is_valid_range s e = true ↔ (s ≥ 0 ∧ e ≥ 0 ∧ e > s))
    ∧ is_valid_range 10 20 = true
    ∧ is_valid_range 20 10 = false
    ∧ is_valid_range (-1) 5 = false := by
  refine ⟨?_, by decide, by decide, by decide⟩
  simp [is_valid_range, and_assoc]

lemma truncToInt_zero : truncToInt 0 = 0 := by decide

lemma producer_get_audio_def (speed : ℚ) (g : mlt_audio → mlt_audio × Int) (a : mlt_audio) :
    producer_get_audio speed g a
      = (if speed < 0 then
           mlt_audio_reverse
             { (g a).1 with frequency := truncToInt (((g a).1.frequency : ℚ) * |speed|) }
         else
           { (g a).1 with frequency := truncToInt (((g a).1.frequency : ℚ) * |speed|) },
         (g a).2) := by
  unfold producer_get_audio
  rfl

/-- C2: the render step sets the output frequency to the raw frequency
scaled by `|speed|` and truncated to `int`; the status it returns is
exactly the raw retrieval's status; at `speed = 0` the output frequency
is `0` and the status is still the upstream one (success stays
success), not an error of its own. -/
theorem producer_get_audio_frequency_spec (speed : ℚ)
    (g : mlt_audio → mlt_audio × Int) (a : mlt_audio) :
    (producer_get_audio speed g a).1.frequency
        = truncToInt (((g a).1.frequency : ℚ) * |speed|)
    ∧ (producer_get_audio speed g a).2 = (g a).2
    ∧ (speed = 0 →
        (producer_get_audio speed g a).1.frequency = 0
        ∧ (producer_get_audio speed g a).2 = (g a).2) := by
  rw [producer_get_audio_def]
  refine ⟨?_, rfl, ?_⟩
  · by_cases hs : speed < 0 <;> simp [hs, mlt_audio_reverse]
  · rintro rfl
    rw [if_neg (lt_irrefl (0 : ℚ))]
    refine ⟨?_, rfl⟩
    show truncToInt (((g a).1.frequency : ℚ) * |(0 : ℚ)|) = 0
    rw [abs_zero, mul_zero, truncToInt_zero]

/-- Witness for `producer_get_audio_frequency_spec` at `speed = 0` on a
concrete buffer with a succeeding upstream retrieval. -/
theorem producer_get_audio_frequency_spec_witness :
    (producer_get_audio 0 chainOk sampleAudio).1.frequency
        = truncToInt (((chainOk sampleAudio).1.frequency : ℚ) * |(0 : ℚ)|)
    ∧ (producer_get_audio 0 chainOk sampleAudio).2 = (chainOk sampleAudio).2
    ∧ ((0 : ℚ) = 0 →
        (producer_get_audio 0 chainOk sampleAudio).1.frequency = 0
        ∧ (producer_get_audio 0 chainOk sampleAudio).2 = (chainOk sampleAudio).2) :=
  producer_get_audio_frequency_spec 0 chainOk sampleAudio

/-- C3: the render step reverses the temporal order of the sample
groups exactly when `speed < 0`; for `speed ≥ 0` the sample order
passes through unchanged. -/
theorem producer_get_audio_reverse_spec (speed : ℚ)
    (g : mlt_audio → mlt_audio × Int) (a : mlt_audio) :
    (speed < 0 →
      (producer_get_audio speed g a).1.data = ((g a).1.data).reverse)
    ∧ (0 ≤ speed →
      (producer_get_audio speed g a).1.data = (g a).1.data) := by
  rw [producer_get_audio_def]
  constructor
  · intro h; rw [if_pos h]; rfl
  · intro h; rw [if_neg (not_lt.mpr h)]

/-- Witness for `producer_get_audio_reverse_spec`: reversal at
`speed = -1`, pass-through at `speed = 2`, on a concrete buffer. -/
theorem producer_get_audio_reverse_spec_witness :
    (producer_get_audio (-1) chainOk sampleAudio).1.data
        = ((chainOk sampleAudio).1.data).reverse
    ∧ (producer_get_audio 2 chainOk sampleAudio).1.data
        = (chainOk sampleAudio).1.data :=
  ⟨(producer_get_audio_reverse_spec (-1) chainOk sampleAudio).1 (by norm_num),
   (producer_get_audio_reverse_spec 2 chainOk sampleAudio).2 (by norm_num)⟩

/-- C9: the render step returns a buffer whose channel count and sample
format equal those of the raw audio obtained from the rest of the
chain, for every speed. -/
theorem producer_get_audio_channels_fmt_spec (speed : ℚ)
    (g : mlt_audio → mlt_audio × Int) (a : mlt_audio) :
    (producer_get_audio speed g a).1.channels = (g a).1.channels
    ∧ (producer_get_audio speed g a).1.fmt = (g a).1.fmt := by
  rw [producer_get_audio_def]
  constructor <;> by_cases hs : speed < 0 <;> simp [hs, mlt_audio_reverse]

/-- C10: when the upstream raw-audio retrieval fails (non-zero status),
`producer_get_audio` still applies the speed transform — frequency
scaled by `|speed|`, sample groups reversed for `speed < 0` — to the
buffer values the failed retrieval left, and returns them together with
that error status. -/
theorem producer_get_audio_error_spec (speed : ℚ)
    (g : mlt_audio → mlt_audio × Int) (a : mlt_audio)
    (_h : (g a).2 ≠ 0) :
    (producer_get_audio speed g a).2 = (g a).2
    ∧ (producer_get_audio speed g a).1.frequency
        = truncToInt (((g a).1.frequency : ℚ) * |speed|)
    ∧ (producer_get_audio speed g a).1.data
        = (if speed < 0 then ((g a).1.data).reverse else (g a).1.data) := by
  rw [producer_get_audio_def]
  refine ⟨rfl, ?_, ?_⟩ <;> by_cases hs : speed < 0 <;> simp [hs, mlt_audio_reverse]

/-- Witness for `producer_get_audio_error_spec` at `speed = -1` with a
failing upstream retrieval. -/
theorem producer_get_audio_error_spec_witness :
    (producer_get_audio (-1) chainFail sampleAudio).2 = (chainFail sampleAudio).2
    ∧ (producer_get_audio (-1) chainFail sampleAudio).1.frequency
        = truncToInt (((chainFail sampleAudio).1.frequency : ℚ) * |(-1 : ℚ)|)
    ∧ (producer_get_audio (-1) chainFail sampleAudio).1.data
        = (if (-1 : ℚ) < 0 then ((chainFail sampleAudio).1.data).reverse
           else (chainFail sampleAudio).1.data) :=
  producer_get_audio_error_spec (-1) chainFail sampleAudio (by decide)

/-- Concrete configuration with range restriction enabled on [10, 20]. -/
def propsOn : Props :=
  { speed := 1, start_frame := 10, end_frame := 20, limit_enabled := true }

/-- Concrete configuration with range restriction disabled. -/
def propsOff : Props :=
  { speed := 1, start_frame := 10, end_frame := 20, limit_enabled := false }

/-- A concrete inner source returning a real-audio frame with success. -/
def innerOk : Int → Int → Frame × Int :=
  fun _ _ => ({ test_audio := false, audio_stack := [] }, 0)

/-- A concrete inner source returning a placeholder (test-audio) frame. -/
def innerPlaceholder : Int → Int → Frame × Int :=
  fun _ _ => ({ test_audio := true, audio_stack := [] }, 0)

lemma producer_get_frame_def (props : Props) (pos : Int)
    (g : Int → Int → Frame × Int) (index : Int) :
    producer_get_frame props pos g index
      = (if ! (g (effective_position props pos) index).1.test_audio then
           { (g (effective_position props pos) index).1 with
             audio_stack := AudioStackItem.step :: AudioStackItem.handle ::
               (g (effective_position props pos) index).1.audio_stack }
         else (g (effective_position props pos) index).1,
         (g (effective_position props pos) index).2,
         effective_position props pos) := by
  unfold producer_get_frame effective_position
  rfl

lemma effective_position_restricted (props : Props) (pos : Int)
    (h1 : props.limit_enabled = true)
    (h2 : is_valid_range props.start_frame props.end_frame = true) :
    effective_position props pos
      = restrict_range pos props.start_frame props.end_frame := by
  simp [effective_position, h1, h2]

lemma effective_position_id (props : Props) (pos : Int)
    (h : ¬ (props.limit_enabled = true
            ∧ is_valid_range props.start_frame props.end_frame = true)) :
    effective_position props pos = pos := by
  unfold effective_position
  split
  · rename_i hcond
    simp only [Bool.and_eq_true] at hcond
    exact absurd hcond h
  · rfl

/-- C5: when range limiting is enabled and the bounds pass the validity
check, `producer_get_frame` sets the inner position to
`restrict_range(position, start, end)` and delegates the frame request
at that position; in every other case the inner position is left at its
pre-call value and delegation runs at that unmodified position. -/
theorem producer_get_frame_position_spec (props : Props) (pos : Int)
    (g : Int → Int → Frame × Int) (index : Int) :
    (props.limit_enabled = true →
      is_valid_range props.start_frame props.end_frame = true →
      (producer_get_frame props pos g index).2.2
          = restrict_range pos props.start_frame props.end_frame
      ∧ (producer_get_frame props pos g index).2.1
          = (g (restrict_range pos props.start_frame props.end_frame) index).2)
    ∧ (¬ (props.limit_enabled = true
          ∧ is_valid_range props.start_frame props.end_frame = true) →
      (producer_get_frame props pos g index).2.2 = pos
      ∧ (producer_get_frame props pos g index).2.1 = (g pos index).2) := by
  constructor
  · intro h1 h2
    rw [producer_get_frame_def, effective_position_restricted props pos h1 h2]
    exact ⟨rfl, rfl⟩
  · intro h
    rw [producer_get_frame_def, effective_position_id props pos h]
    exact ⟨rfl, rfl⟩

/-- Witness for `producer_get_frame_position_spec`: enabled valid range
[10, 20] at position 25, and the disabled configuration at the same
position. -/
theorem producer_get_frame_position_spec_witness :
    ((producer_get_frame propsOn 25 innerOk 0).2.2 = restrict_range 25 10 20
      ∧ (producer_get_frame propsOn 25 innerOk 0).2.1
          = (innerOk (restrict_range 25 10 20) 0).2)
    ∧ ((producer_get_frame propsOff 25 innerOk 0).2.2 = 25
      ∧ (producer_get_frame propsOff 25 innerOk 0).2.1 = (innerOk 25 0).2) :=
  ⟨(producer_get_frame_position_spec propsOn 25 innerOk 0).1 rfl (by decide),
   (producer_get_frame_position_spec propsOff 25 innerOk 0).2 (by decide)⟩

/-- C8: the status `producer_get_frame` returns is exactly the status
of the delegated inner frame retrieval, and the status `producer_seek`
returns is exactly the inner seek's status — propagated verbatim. -/
theorem status_propagation_spec (props : Props) (pos : Int)
    (g : Int → Int → Frame × Int) (index : Int)
    (inner_seek : Int → Int) (p : Int) :
    (producer_get_frame props pos g index).2.1
        = (g (effective_position props pos) index).2
    ∧ producer_seek inner_seek p = inner_seek p := by
  rw [producer_get_frame_def]
  exact ⟨rfl, rfl⟩

/-- C7: a render step is attached iff the produced frame is not a
placeholder: for a real-audio frame the audio stack gains the
`producer_get_audio` step (with the producer handle beneath it); a
placeholder frame is returned untouched, and rendering a fresh
placeholder frame later yields its own chain's content unmodified for
every speed. -/
theorem attach_iff_not_placeholder_spec (props : Props) (pos : Int)
    (g : Int → Int → Frame × Int) (index : Int) :
    ((g (effective_position props pos) index).1.test_audio = false →
      (producer_get_frame props pos g index).1.audio_stack
        = AudioStackItem.step :: AudioStackItem.handle ::
            (g (effective_position props pos) index).1.audio_stack)
    ∧ ((g (effective_position props pos) index).1.test_audio = true →
      (producer_get_frame props pos g index).1
          = (g (effective_position props pos) index).1
      ∧ ((g (effective_position props pos) index).1.audio_stack = [] →
        ∀ (s : ℚ) (fga : mlt_audio → mlt_audio × Int) (input : mlt_audio),
          frame_render_audio s (producer_get_frame props pos g index).1 fga input
            = fga input)) := by
  constructor
  · intro h
    rw [producer_get_frame_def, h]
    rfl
  · intro h
    rw [producer_get_frame_def, h]
    constructor
    · rfl
    · intro hstack s fga input
      show frame_render_audio s (g (effective_position props pos) index).1 fga input
          = fga input
      unfold frame_render_audio
      rw [hstack]

/-- Witness for `attach_iff_not_placeholder_spec`: a real-audio inner
frame gains the step; a placeholder inner frame stays untouched and
renders to its own content at speed 3. -/
theorem attach_iff_not_placeholder_spec_witness :
    (producer_get_frame propsOff 5 innerOk 0).1.audio_stack
        = AudioStackItem.step :: AudioStackItem.handle ::
            (innerOk (effective_position propsOff 5) 0).1.audio_stack
    ∧ ((producer_get_frame propsOff 5 innerPlaceholder 0).1
          = (innerPlaceholder (effective_position propsOff 5) 0).1
      ∧ frame_render_audio 3 (producer_get_frame propsOff 5 innerPlaceholder 0).1
            chainOk sampleAudio
          = chainOk sampleAudio) :=
  ⟨(attach_iff_not_placeholder_spec propsOff 5 innerOk 0).1 (by decide),
   ((attach_iff_not_placeholder_spec propsOff 5 innerPlaceholder 0).2 (by decide)).1,
   ((attach_iff_not_placeholder_spec propsOff 5 innerPlaceholder 0).2 (by decide)).2
     (by decide) 3 chainOk sampleAudio⟩

/-- C6: rendering the audio of a produced (real-audio) frame applies
`producer_get_audio` with the speed in force at render time; the
configuration under which the frame was produced — `attach_props`, with
any attach-time `speed` — does not enter the rendered result. -/
theorem render_reads_current_speed_spec (attach_props : Props) (pos : Int)
    (g : Int → Int → Frame × Int) (index : Int) (render_speed : ℚ)
    (fga : mlt_audio → mlt_audio × Int) (input : mlt_audio)
    (h : (g (effective_position attach_props pos) index).1.test_audio = false) :
    frame_render_audio render_speed
        (producer_get_frame attach_props pos g index).1 fga input
      = producer_get_audio render_speed fga input := by
  rw [producer_get_frame_def, h]
  rfl

/-- Witness for `render_reads_current_speed_spec`: the frame is
produced under configuration speed 1 but rendered at speed 2, and the
result is the speed-2 transform. -/
theorem render_reads_current_speed_spec_witness :
    frame_render_audio 2 (producer_get_frame propsOn 25 innerOk 0).1
        chainOk sampleAudio
      = producer_get_audio 2 chainOk sampleAudio :=
  render_reads_current_speed_spec propsOn 25 innerOk 0 2 chainOk sampleAudio
    (by decide)

end ProducerKrita
